import Mathlib

/-!
Shallow embedding of the weak-reference caching subsystem of snakeoil's C
accelerator modules, and proofs about it.

The embedded code is `src/caching.c` (the `WeakValFinalizer`, `WeakValCache`
and `WeakInstMeta` types) and the `InternalJitAttr` descriptor of
`src/klass.c`.  CPython objects are modelled by identities (`Nat`), the
backing `PyDict` by an association list, weak references by a wrapper
carrying the referent's identity together with a liveness oracle
`alive : Nat → Bool` describing which referents are still reachable at the
moment of the call being modelled.
-/

namespace Snakeoil

/-- Kinds of host (CPython) exceptions distinguished by the embedded code. -/
inductive CErr where
  | typeError
  | notImplemented
  | keyError
  /-- `PyErr_Warn` itself raised (warnings configured as errors). -/
  | warningRaised
  /-- any other exception (e.g. an arbitrary error out of a `__hash__` call). -/
  | other
deriving DecidableEq

section PyDictModel

variable {κ α : Type} [DecidableEq κ]

/-- `PyDict_GetItem`: look a key up in a dict, `none` for a missing key
(no exception is set by this CPython call). -/
def pyDictGetItem (d : List (κ × α)) (k : κ) : Option α :=
  (d.find? fun p => decide (p.1 = k)).map (·.2)

/-- `PyDict_SetItem` with a non-NULL value: bind `k` to `v`, overwriting any
previous binding of `k` and leaving all other bindings untouched. -/
def pyDictSetItemVal (d : List (κ × α)) (k : κ) (v : α) : List (κ × α) :=
  (k, v) :: (d.filter fun p => decide (p.1 ≠ k))

/-- `PyDict_DelItem`: remove the binding of `k`; the `none` result models the
call failing with `KeyError` because `k` is absent. -/
def pyDictDelItem (d : List (κ × α)) (k : κ) : Option (List (κ × α)) :=
  if (pyDictGetItem d k).isSome then
    some (d.filter fun p => decide (p.1 ≠ k))
  else
    none

theorem pyDictGetItem_setItemVal_self (d : List (κ × α)) (k : κ) (v : α) :
    pyDictGetItem (pyDictSetItemVal d k v) k = some v := by
  simp [pyDictGetItem, pyDictSetItemVal, List.find?_cons]

theorem pyDictGetItem_filter_self (d : List (κ × α)) (k : κ) :
    pyDictGetItem (d.filter fun p => decide (p.1 ≠ k)) k = none := by
  have h : (d.filter fun p => decide (p.1 ≠ k)).find? (fun p => decide (p.1 = k))
      = none := by
    rw [List.find?_eq_none]
    intro x hx
    simp only [List.mem_filter, decide_eq_true_eq] at hx
    simpa using hx.2
  simp [pyDictGetItem, h]

theorem pyDictDelItem_of_found {d : List (κ × α)} {k : κ} {v : α}
    (h : pyDictGetItem d k = some v) :
    pyDictDelItem d k = some (d.filter fun p => decide (p.1 ≠ k)) := by
  simp [pyDictDelItem, h]

end PyDictModel

/-! ## WeakValCache (`src/caching.c`, lines 40-357)

The backing store `self->dict` maps keys (modelled as `Nat` identities) to
weak-reference objects.  A weak reference is modelled by the identity of its
referent; `PyWeakref_GetObject` answers the referent when `alive` holds of it
and `Py_None` otherwise. -/

/-- A weak-reference object stored in the backing dict: it records the
identity of its referent.  (The finalizer attached to it by
`snakeoil_WeakValCache_setitem` is bound to the same dict and key the entry
lives under, so it needs no separate state here; its behaviour is
`WeakValFinalizer_call`.) -/
structure Weakref where
  ref : Nat
deriving DecidableEq

/-- A value handed to the cache's `setitem`: either an ordinary object
(identified by `id`) or an already-constructed weak-reference wrapper, which
`PyWeakref_Check` recognises. -/
inductive PyVal where
  | obj (id : Nat)
  | wref (r : Nat)
deriving DecidableEq

/-- `PyWeakref_Check` on a `PyVal`. -/
def pyWeakrefCheck : PyVal → Bool
  | .obj _ => false
  | .wref _ => true

/-- The backing dict of a `WeakValCache`. -/
abbrev WVDict := List (Nat × Weakref)

/-- Outcome of `snakeoil_WeakValCache_setitem` (the `mp_ass_subscript` slot). -/
inductive SetItemOutcome where
  /-- returned 0; `d` is the backing dict afterwards. -/
  | ok (d : WVDict)
  /-- raised `TypeError` ("cannot set value to a weakref"); dict unchanged. -/
  | typeError (d : WVDict)
  /-- undefined behaviour in the host: `PyDict_SetItem` was reached with a
  NULL value pointer (CPython `assert`s `value != NULL` and unconditionally
  increments its reference count, so this aborts or dereferences NULL). -/
  | crash
deriving DecidableEq

/-- `snakeoil_WeakValCache_setitem` (caching.c lines 209-233).  `val = none`
models the deletion form of the slot (`del cache[key]`, where C passes
`val == NULL`): the code forwards that NULL straight to `PyDict_SetItem`,
which requires a non-NULL value, hence `.crash`.  A weak-reference value is
rejected with `TypeError` before any mutation; otherwise a fresh weakref to
the value (with a finalizer bound to the dict and key) replaces any previous
binding of `key`. -/
def WeakValCache_setitem (d : WVDict) (key : Nat) (val : Option PyVal) :
    SetItemOutcome :=
  match val with
  | none => .crash
  | some v =>
    if pyWeakrefCheck v then
      .typeError d
    else
      match v with
      | .obj id => .ok (pyDictSetItemVal d key ⟨id⟩)
      | .wref _ => .typeError d

/-- Outcome of `snakeoil_WeakValCache_getitem` (the `mp_subscript` slot). -/
inductive GetItemOutcome where
  /-- returned a strong reference to the object with identity `id`;
  `d` is the backing dict afterwards. -/
  | found (id : Nat) (d : WVDict)
  /-- returned NULL with `KeyError` set. -/
  | keyError (d : WVDict)
  /-- returned NULL with **no** exception set (the dead-referent branch sets
  none); CPython converts such a return from `mp_subscript` into
  `SystemError: error return without exception set`. -/
  | nullNoExc (d : WVDict)
deriving DecidableEq

/-- `snakeoil_WeakValCache_getitem` (caching.c lines 235-256).  A present
entry whose weakref still resolves is returned; a present entry whose
referent is gone is deleted from the backing dict and NULL is returned
*without an exception being set*; an absent key sets `KeyError`. -/
def WeakValCache_getitem (alive : Nat → Bool) (d : WVDict) (key : Nat) :
    GetItemOutcome :=
  match pyDictGetItem d key with
  | some w =>
    if alive w.ref then
      .found w.ref d
    else
      match pyDictDelItem d key with
      | some d2 => .nullNoExc d2
      | none => .keyError d
  | none => .keyError d

/-- Outcome of `snakeoil_WeakValCache_get`. -/
inductive GetOutcome where
  /-- returned a strong reference to the live value. -/
  | val (id : Nat) (d : WVDict)
  /-- returned the default argument (`none` models `Py_None`, used when no
  default was passed). -/
  | defaulted (v : Option Nat) (d : WVDict)
deriving DecidableEq

/-- `snakeoil_WeakValCache_get` (caching.c lines 258-292): call the
subscript; a non-NULL result is returned as-is; a NULL result whose pending
exception is `KeyError` — or a NULL result with no pending exception at all,
since the guard is `PyErr_Occurred() && !PyErr_ExceptionMatches(KeyError)` —
is converted into returning the default. -/
def WeakValCache_get (alive : Nat → Bool) (d : WVDict) (key : Nat)
    (defaultArg : Option Nat) : GetOutcome :=
  match WeakValCache_getitem alive d key with
  | .found id d2 => .val id d2
  | .keyError d2 => .defaulted defaultArg d2
  | .nullNoExc d2 => .defaulted defaultArg d2

/-- `snakeoil_WeakValFinalizer_call` (caching.c lines 54-63): ignore the
arguments and perform `PyDict_DelItem(self->dict, self->key)`, propagating
its failure (the `KeyError` raised when the key is already absent). -/
def WeakValFinalizer_call (d : WVDict) (key : Nat) : Except CErr WVDict :=
  match pyDictDelItem d key with
  | some d2 => .ok d2
  | none => .error .keyError

/-! ## Claims C1-C5 -/

/-- C1: for every key `k` and every value that is not a weak-reference
wrapper (an ordinary object of identity `id`), once `set(k, v)` succeeds and
while `v` is still alive, a lookup of `k` with no intervening operation on
`k` returns exactly the object of identity `id` — the identical object, never
a different one — and leaves the backing dict unchanged. -/
theorem C1_set_then_get_identity (d d2 : WVDict) (k id : Nat)
    (alive : Nat → Bool)
    (hset : WeakValCache_setitem d k (some (.obj id)) = .ok d2)
    (halive : alive id = true) :
    WeakValCache_getitem alive d2 k = .found id d2 := by
  have hd2 : d2 = pyDictSetItemVal d k ⟨id⟩ := by
    simpa [WeakValCache_setitem, pyWeakrefCheck] using hset.symm
  subst hd2
  simp [WeakValCache_getitem, pyDictGetItem_setItemVal_self, halive]

theorem C1_witness :
    WeakValCache_setitem [] 3 (some (.obj 7)) = .ok [(3, ⟨7⟩)] ∧
    WeakValCache_getitem (fun _ => true) [(3, ⟨7⟩)] 3 = .found 7 [(3, ⟨7⟩)] :=
  ⟨by decide, C1_set_then_get_identity [] [(3, ⟨7⟩)] 3 7 (fun _ => true)
    (by decide) rfl⟩

/-- C2 counterexample: invoking the finalizer for a (mapping, key) pair whose
key is already absent is *not* a no-op — at the concrete input of an empty
backing dict and key 0, the call raises `KeyError` (in C,
`PyDict_DelItem` fails and `snakeoil_WeakValFinalizer_call` returns NULL
with that error pending), refuting "does not raise an error". -/
theorem C2_counterexample :
    WeakValFinalizer_call ([] : WVDict) 0 = Except.error CErr.keyError := rfl

/-- C2 (amended): invoking the finalizer bound to (mapping, key) when the key
is present removes the entry and leaves the mapping without that key; when
the key is already absent, the invocation raises `KeyError` (the deletion
failure propagates, so it is not a silent no-op), though the mapping is
still without that key. -/
theorem C2_finalizer_behaviour (d : WVDict) (k : Nat) :
    ((pyDictGetItem d k).isSome = true →
      WeakValFinalizer_call d k = .ok (d.filter fun p => decide (p.1 ≠ k)) ∧
      pyDictGetItem (d.filter fun p => decide (p.1 ≠ k)) k = none) ∧
    ((pyDictGetItem d k).isSome = false →
      WeakValFinalizer_call d k = .error .keyError) := by
  constructor
  · intro h
    refine ⟨?_, pyDictGetItem_filter_self d k⟩
    simp [WeakValFinalizer_call, pyDictDelItem, h]
  · intro h
    simp [WeakValFinalizer_call, pyDictDelItem, h]

theorem C2_witness :
    (WeakValFinalizer_call [(4, (⟨9⟩ : Weakref))] 4 = .ok [] ∧
      pyDictGetItem ([] : WVDict) 4 = none) ∧
    WeakValFinalizer_call ([(4, (⟨9⟩ : Weakref))].filter
      fun p => decide (p.1 ≠ 4)) 4 = .error .keyError := by
  refine ⟨?_, ?_⟩
  · have h := (C2_finalizer_behaviour [(4, ⟨9⟩)] 4).1 (by decide)
    exact ⟨by simpa using h.1, by simpa using h.2⟩
  · exact (C2_finalizer_behaviour ([(4, ⟨9⟩)].filter
      fun p => decide (p.1 ≠ 4)) 4).2 (by decide)

/-- C3 (code bug, evaluated at the failing input): with a cache whose single
entry `5 ↦ weakref 3` has a dead referent, a subscript lookup of key 5 does
delete the stale entry, but it returns NULL with *no* exception set
(`.nullNoExc`) instead of signalling the promised NotFound/`KeyError`
condition — CPython turns this into `SystemError: error return without
exception set`.  The `get`-with-default form nevertheless returns the
default, because its error guard only fires when an exception is actually
pending. -/
theorem C3_deadref_no_keyerror :
    WeakValCache_getitem (fun _ => false) [(5, ⟨3⟩)] 5 = .nullNoExc [] ∧
    WeakValCache_getitem (fun _ => false) [(5, ⟨3⟩)] 5 ≠ .keyError [] ∧
    WeakValCache_get (fun _ => false) [(5, ⟨3⟩)] 5 (some 7) =
      .defaulted (some 7) [] := by
  refine ⟨by decide, by decide, by decide⟩

/-- C4 (code bug, evaluated at the failing input): the mapping-protocol
deletion form of `set` (`del cache[k]`, i.e. `val == NULL`) does not remove
the entry: `snakeoil_WeakValCache_setitem` forwards the NULL value to
`PyDict_SetItem`, which requires a non-NULL value (it would have to be
`PyDict_DelItem`), so the operation is undefined behaviour in the host
rather than a deletion. -/
theorem C4_delete_is_crash :
    WeakValCache_setitem [(5, ⟨3⟩)] 5 none = .crash ∧
    ∀ d2 : WVDict, WeakValCache_setitem [(5, ⟨3⟩)] 5 none ≠ .ok d2 := by
  exact ⟨rfl, fun d2 h => by simp [WeakValCache_setitem] at h⟩

/-- C5: storing a value that is itself already a weak-reference wrapper fails
with `TypeError` and leaves the backing map completely unchanged (the same
dict `d` is returned untouched — no entry added, removed or overwritten for
any key). -/
theorem C5_wref_value_rejected (d : WVDict) (k r : Nat) :
    WeakValCache_setitem d k (some (.wref r)) = .typeError d := rfl

/-! ## WeakInstMeta (`src/caching.c`, lines 360-652)

Constructor arguments are modelled by `PyV`: an integer (hashable, and the
only kind a truthiness flag takes in practice), an unhashable object whose
`__hash__` raises `TypeError` (a Python list — modelled as non-empty, hence
truthy), and an object whose `__hash__` raises some unrelated exception.
Keyword names are modelled as `Nat` (interned strings, always hashable,
totally ordered). -/

/-- A constructor-argument value. -/
inductive PyV where
  | int (n : Int)
  /-- an unhashable object (hashing raises `TypeError`), e.g. a list. -/
  | list (n : Nat)
  /-- an object whose `__hash__` raises an exception other than
  `TypeError`/`NotImplementedError`. -/
  | badHash (n : Nat)
deriving DecidableEq

/-- `PyObject_IsTrue` on a `PyV` (lists modelled as non-empty). -/
def pyTruthy : PyV → Bool
  | .int n => decide (n ≠ 0)
  | .list _ => true
  | .badHash _ => true

/-- Result of hashing a single value: `none` when it hashes fine, otherwise
the exception its `__hash__` raises. -/
def pyVHashErr : PyV → Option CErr
  | .int _ => none
  | .list _ => some .typeError
  | .badHash _ => some .other

/-- Python 2 default comparison restricted to the modelled values: equal
types compare by (modelled) contents, different types by type name
("int" < "list" and any real type name precedes the modelled bad-hash
object's). -/
def PyV.le : PyV → PyV → Bool
  | .int m, .int n => decide (m ≤ n)
  | .int _, .list _ => true
  | .int _, .badHash _ => true
  | .list _, .int _ => false
  | .list m, .list n => decide (m ≤ n)
  | .list _, .badHash _ => true
  | .badHash _, .int _ => false
  | .badHash _, .list _ => false
  | .badHash m, .badHash n => decide (m ≤ n)

/-- Python 2 comparison of `(name, value)` keyword items: lexicographic. -/
def kwPairLE (a b : Nat × PyV) : Bool :=
  decide (a.1 < b.1) || (decide (a.1 = b.1) && PyV.le a.2 b.2)

theorem PyV.le_total (a b : PyV) : a.le b = true ∨ b.le a = true := by
  cases a <;> cases b <;> simp [PyV.le] <;> omega

theorem PyV.le_antisymm {a b : PyV} (h1 : a.le b = true) (h2 : b.le a = true) :
    a = b := by
  cases a <;> cases b <;> simp_all [PyV.le] <;> omega

theorem PyV.le_trans {a b c : PyV} (h1 : a.le b = true) (h2 : b.le c = true) :
    a.le c = true := by
  cases a <;> cases b <;> cases c <;> simp_all [PyV.le] <;> omega

/-- The item ordering as a decidable relation. -/
def kwR (a b : Nat × PyV) : Prop := kwPairLE a b = true

instance : DecidableRel kwR := fun a b =>
  inferInstanceAs (Decidable (kwPairLE a b = true))

instance : IsTotal (Nat × PyV) kwR := by
  refine ⟨fun a b => ?_⟩
  rcases a with ⟨a1, a2⟩
  rcases b with ⟨b1, b2⟩
  simp only [kwR, kwPairLE, Bool.or_eq_true, decide_eq_true_eq,
    Bool.and_eq_true]
  rcases Nat.lt_trichotomy a1 b1 with h | h | h
  · exact Or.inl (Or.inl h)
  · subst h
    rcases PyV.le_total a2 b2 with h2 | h2
    · exact Or.inl (Or.inr ⟨rfl, h2⟩)
    · exact Or.inr (Or.inr ⟨rfl, h2⟩)
  · exact Or.inr (Or.inl h)

instance : IsAntisymm (Nat × PyV) kwR := by
  refine ⟨fun a b h1 h2 => ?_⟩
  rcases a with ⟨a1, a2⟩
  rcases b with ⟨b1, b2⟩
  simp only [kwR, kwPairLE, Bool.or_eq_true, decide_eq_true_eq,
    Bool.and_eq_true] at h1 h2
  rcases h1 with h1 | ⟨h1e, h1v⟩ <;> rcases h2 with h2 | ⟨h2e, h2v⟩
  · omega
  · omega
  · omega
  · exact Prod.ext h1e (PyV.le_antisymm h1v h2v)

instance : IsTrans (Nat × PyV) kwR := by
  refine ⟨fun a b c h1 h2 => ?_⟩
  rcases a with ⟨a1, a2⟩
  rcases b with ⟨b1, b2⟩
  rcases c with ⟨c1, c2⟩
  simp only [kwR, kwPairLE, Bool.or_eq_true, decide_eq_true_eq,
    Bool.and_eq_true] at h1 h2 ⊢
  rcases h1 with h1 | ⟨h1e, h1v⟩ <;> rcases h2 with h2 | ⟨h2e, h2v⟩
  · exact Or.inl (by omega)
  · exact Or.inl (by omega)
  · exact Or.inl (by omega)
  · exact Or.inr ⟨by omega, PyV.le_trans h1v h2v⟩

/-- A keyword-item list (`PyDict_Items` of the kwargs dict). -/
abbrev KwList := List (Nat × PyV)

/-- `PyList_Sort` on the items list under the Python 2 item comparison. -/
def pyListSort (l : KwList) : KwList := l.insertionSort kwR

theorem pyListSort_perm_invariant {l1 l2 : KwList} (h : l1.Perm l2) :
    pyListSort l1 = pyListSort l2 :=
  List.eq_of_perm_of_sorted
    ((List.perm_insertionSort kwR l1).trans
      (h.trans (List.perm_insertionSort kwR l2).symm))
    (List.sorted_insertionSort kwR l1) (List.sorted_insertionSort kwR l2)

/-- Lines 487-504: the keyword part of the cache key for a call whose
*original* kwargs dict was non-empty: the items of the (possibly
flag-stripped) kwargs dict, sorted when the original size exceeded 1 (with
at most one item the list is trivially sorted already). -/
def kwtupleFrom (origLen : Nat) (kwitems : KwList) : KwList :=
  if 1 < origLen then pyListSort kwitems else kwitems

/-- The instance-cache key (line 507): the pair of the positional-argument
tuple and the keyword tuple (`none` models `Py_None`, used when the call had
no keyword arguments at all). -/
abbrev InstKey := List PyV × Option KwList

/-- The key built for a call with a non-empty original kwargs dict. -/
def instKeyOf (args : List PyV) (origLen : Nat) (kwitems : KwList) : InstKey :=
  (args, some (kwtupleFrom origLen kwitems))

/-- Hashing of the cache key (a nested tuple): the components are hashed in
order — positional arguments first, then the keyword values (keyword names
are interned strings and always hash) — and the first failure aborts. -/
def firstHashErr : List PyV → Option CErr
  | [] => none
  | v :: rest =>
    match pyVHashErr v with
    | some e => some e
    | none => firstHashErr rest

/-- First hashing failure over a whole `InstKey`, `none` when it hashes. -/
def keyHashErr (key : InstKey) : Option CErr :=
  firstHashErr (key.1 ++ (key.2.getD []).map (·.2))

/-- The per-type instance cache `self->inst_dict`. -/
abbrev InstDict := List (InstKey × Weakref)

/-- `PyDict_GetItem` on the instance cache: it swallows any error raised
while hashing the key, so an unhashable key simply looks like a miss
(cf. the comment at caching.c lines 529-530). -/
def pyDictGetItemH (d : InstDict) (k : InstKey) : Option Weakref :=
  match keyHashErr k with
  | some _ => none
  | none => pyDictGetItem d k

/-- `PyDict_SetItem` on the instance cache: hashing failures propagate. -/
def pyDictSetItemH (d : InstDict) (k : InstKey) (v : Weakref) :
    Except CErr InstDict :=
  match keyHashErr k with
  | some e => .error e
  | none => .ok (pyDictSetItemVal d k v)

/-- Result of `snakeoil_WeakInstMeta_call`. -/
inductive CallResult where
  /-- a freshly constructed instance (identity `id`) was returned;
  `kwpassed` is the keyword dict handed to the real constructor
  (`PyType_Type.tp_call`), `d` the instance cache afterwards, and `warned`
  whether the "caching for %s, key=%s is unhashable" `UserWarning` was
  emitted. -/
  | fresh (id : Nat) (kwpassed : Option KwList) (d : InstDict) (warned : Bool)
  /-- a previously cached, still-live instance was returned. -/
  | cached (id : Nat) (d : InstDict)
  /-- an exception propagated to the caller. -/
  | error (e : CErr)
deriving DecidableEq

/-- The reserved "bypass caching" keyword, `disable_inst_caching`
(keyword names being modelled as `Nat`). -/
def disableInstCaching : Nat := 0

/-- Lines 512-584: look the key up in `self->inst_dict`; on a hit whose
weakref still resolves, return the cached instance; otherwise construct a
fresh instance and try to register `key ↦ weakref(fresh)`.  When
registration fails with `TypeError`/`NotImplementedError` (unhashable key)
the error is cleared, the "caching for %s, key=%s is unhashable"
`UserWarning` is emitted (itself raising only when warnings are configured
as errors, `warnRaises`) and the fresh instance is still returned uncached;
any other registration failure propagates. -/
def WeakInstMeta_finish (alive : Nat → Bool) (freshId : Nat)
    (warnRaises : Bool) (d : InstDict) (key : InstKey)
    (kwpassed : Option KwList) : CallResult :=
  let register : CallResult :=
    match pyDictSetItemH d key ⟨freshId⟩ with
    | .ok d2 => .fresh freshId kwpassed d2 false
    | .error e =>
      if e = CErr.typeError ∨ e = CErr.notImplemented then
        if warnRaises then .error .warningRaised
        else .fresh freshId kwpassed d true
      else .error e
  match pyDictGetItemH d key with
  | some w => if alive w.ref then .cached w.ref d else register
  | none => register

/-- `snakeoil_WeakInstMeta_call` (caching.c lines 462-585).  Without the
opt-in flag the type behaves like a plain type (fresh construction, no cache
interaction).  With it, a truthy `disable_inst_caching` keyword is stripped
and construction proceeds normally with no cache lookup and no cache store;
a falsy one is stripped too, after which the cache key is built from the
positional tuple and the sorted keyword items (`Py_None` standing in when
the call had no kwargs at all), and `WeakInstMeta_finish` runs the
lookup/registration protocol.  `freshId` is the identity of the instance the
real constructor would build, `alive` the weak-reference liveness oracle. -/
def WeakInstMeta_call (instCaching : Bool) (alive : Nat → Bool)
    (freshId : Nat) (warnRaises : Bool) (d : InstDict) (args : List PyV)
    (kwargs : Option KwList) : CallResult :=
  if !instCaching then
    .fresh freshId kwargs d false
  else
    let kw0 := kwargs.getD []
    let len := kw0.length
    if len = 0 then
      WeakInstMeta_finish alive freshId warnRaises d (args, none) kwargs
    else
      match pyDictGetItem kw0 disableInstCaching with
      | some v =>
        let kw1 := kw0.filter fun p => decide (p.1 ≠ disableInstCaching)
        if pyTruthy v then
          .fresh freshId (some kw1) d false
        else
          WeakInstMeta_finish alive freshId warnRaises d
            (instKeyOf args len kw1) (some kw1)
      | none =>
        WeakInstMeta_finish alive freshId warnRaises d
          (instKeyOf args len kw0) (some kw0)

/-! ## Claims C6-C8 -/

/-- C6: for an opted-in type, when the reserved `disable_inst_caching`
keyword is supplied with a truthy value, the call strips the flag from the
keyword set (the constructor receives the kwargs with every
`disable_inst_caching` binding removed, and a lookup of the flag in what is
passed on finds nothing), performs no cache lookup and no cache store (the
instance cache `d` is returned untouched), and returns the freshly
constructed instance `freshId`, never a previously cached one — whatever the
cache `d` contains. -/
theorem C6_bypass_flag (alive : Nat → Bool) (freshId : Nat)
    (warnRaises : Bool) (d : InstDict) (args : List PyV) (kw : KwList)
    (v : PyV) (hflag : pyDictGetItem kw disableInstCaching = some v)
    (htrue : pyTruthy v = true) :
    WeakInstMeta_call true alive freshId warnRaises d args (some kw) =
      .fresh freshId
        (some (kw.filter fun p => decide (p.1 ≠ disableInstCaching))) d
        false ∧
    pyDictGetItem (kw.filter fun p => decide (p.1 ≠ disableInstCaching))
      disableInstCaching = none := by
  have hne : kw.length ≠ 0 := by
    intro h0
    rw [List.length_eq_zero] at h0
    subst h0
    simp [pyDictGetItem] at hflag
  refine ⟨?_, pyDictGetItem_filter_self kw disableInstCaching⟩
  simp [WeakInstMeta_call, hne, hflag, htrue]

theorem C6_witness :
    WeakInstMeta_call true (fun _ => true) 11 false
        [((([PyV.int 5], none) : InstKey), (⟨42⟩ : Weakref))] [PyV.int 5]
        (some [(disableInstCaching, PyV.int 1), (3, PyV.int 2)]) =
      .fresh 11 (some [(3, PyV.int 2)])
        [((([PyV.int 5], none) : InstKey), (⟨42⟩ : Weakref))] false ∧
    pyDictGetItem ([(disableInstCaching, PyV.int 1), (3, PyV.int 2)].filter
      fun p => decide (p.1 ≠ disableInstCaching)) disableInstCaching =
        none := by
  have h := C6_bypass_flag (fun _ => true) 11 false
    [((([PyV.int 5], none) : InstKey), (⟨42⟩ : Weakref))] [PyV.int 5]
    [(disableInstCaching, PyV.int 1), (3, PyV.int 2)] (PyV.int 1)
    (by decide) (by decide)
  exact ⟨by simpa using h.1, h.2⟩

/-- C7: the instance-cache key is invariant under permutation of the keyword
items — two constructions with the same positional tuple whose keyword
dicts hold the same key/value pairs (their item lists being permutations of
one another) build equal cache keys, hence equal-hashing ones addressing
the same cache entry. -/
theorem C7_kw_order_independent (args : List PyV) (kw1 kw2 : KwList)
    (h : kw1.Perm kw2) :
    instKeyOf args kw1.length kw1 = instKeyOf args kw2.length kw2 := by
  have hlen : kw1.length = kw2.length := h.length_eq
  unfold instKeyOf kwtupleFrom
  rw [← hlen]
  by_cases h1 : 1 < kw1.length
  · simp [h1, pyListSort_perm_invariant h]
  · have : kw1 = kw2 := by
      match kw1, h1 with
      | [], _ => exact h.nil_eq.symm ▸ h.nil_eq
      | [a], _ =>
        have := List.singleton_perm.mp h
        exact this
      | a :: b :: t, h1 => exact absurd (by simp) h1
    simp [this]

theorem C7_witness :
    instKeyOf [PyV.int 9] ([(1, PyV.int 1), (2, PyV.int 2)]).length
        [(1, PyV.int 1), (2, PyV.int 2)] =
      instKeyOf [PyV.int 9] ([(2, PyV.int 2), (1, PyV.int 1)]).length
        [(2, PyV.int 2), (1, PyV.int 1)] :=
  C7_kw_order_independent [PyV.int 9] [(1, PyV.int 1), (2, PyV.int 2)]
    [(2, PyV.int 2), (1, PyV.int 1)] (List.Perm.swap _ _ _)

/-- C8: during a miss-fill (modelled here for a call with positional
arguments only, so the cache key is `(args, Py_None)`), if registering the
key fails because the key is unhashable (its hashing raises `TypeError`),
the call emits the "caching for %s, key=%s is unhashable" warning
(non-fatally, warnings not configured as errors) and still returns the
freshly constructed instance with the cache untouched; if hashing the key
fails with any other exception, that failure propagates to the caller. -/
theorem C8_unhashable_key (alive : Nat → Bool) (freshId : Nat) (d : InstDict)
    (args : List PyV) :
    (firstHashErr args = some CErr.typeError →
      WeakInstMeta_call true alive freshId false d args none =
        .fresh freshId none d true) ∧
    (firstHashErr args = some CErr.other →
      WeakInstMeta_call true alive freshId false d args none =
        .error CErr.other) := by
  constructor
  · intro h
    have hk : keyHashErr (args, none) = some CErr.typeError := by
      simp [keyHashErr, h]
    simp [WeakInstMeta_call, WeakInstMeta_finish, pyDictGetItemH,
      pyDictSetItemH, hk]
  · intro h
    have hk : keyHashErr (args, none) = some CErr.other := by
      simp [keyHashErr, h]
    simp [WeakInstMeta_call, WeakInstMeta_finish, pyDictGetItemH,
      pyDictSetItemH, hk]

theorem C8_witness :
    WeakInstMeta_call true (fun _ => true) 7 false [] [PyV.list 0] none =
      .fresh 7 none [] true ∧
    WeakInstMeta_call true (fun _ => true) 7 false [] [PyV.badHash 0] none =
      .error CErr.other :=
  ⟨(C8_unhashable_key (fun _ => true) 7 [] [PyV.list 0]).1 rfl,
    (C8_unhashable_key (fun _ => true) 7 [] [PyV.badHash 0]).2 rfl⟩

/-! ## InternalJitAttr (`src/klass.c`, lines 226-420)

The memoized-attribute descriptor.  Per instance the only relevant state is
the storage slot named by `storage_attr`: `none` models the attribute being
absent (reading it raises `AttributeError`, which the descriptor clears),
`some v` the slot holding the object with identity `v`.  The bound compute
function's result for this instance is the identity `computed`; how many
times it is invoked during the read is reported in the result. -/

/-- Configuration of a `snakeoil_InternalJitAttr` descriptor.  `useSetattr`
selects `PyObject_SetAttr` over `PyObject_GenericSetAttr` as the store path
(the side channel for otherwise-protected slots); both store the computed
value into the slot, so the state transition is the same in the model. -/
structure JitAttr where
  singleton : Nat
  useSetattr : Bool
  useSingleton : Bool
deriving DecidableEq

/-- Result of `snakeoil_InternalJitAttr_get` on an instance: the value
returned, the storage slot afterwards, and the number of invocations of the
compute function during the read. -/
structure JitGetResult where
  value : Nat
  slot : Option Nat
  calls : Nat
deriving DecidableEq

/-- `snakeoil_InternalJitAttr_get` (klass.c lines 328-375), instance path.
With the singleton check enabled the slot is read first: a present value
that is not (identically) the singleton is returned with no compute call;
an absent slot or the singleton falls through.  Falling through — or having
the singleton check disabled — invokes the compute function once and stores
its result into the slot (via the configured set path). -/
def InternalJitAttr_get (a : JitAttr) (slot : Option Nat) (computed : Nat) :
    JitGetResult :=
  if a.useSingleton then
    match slot with
    | some v =>
      if v ≠ a.singleton then ⟨v, slot, 0⟩
      else ⟨computed, some computed, 1⟩
    | none => ⟨computed, some computed, 1⟩
  else
    ⟨computed, some computed, 1⟩

/-- C9: with the singleton check enabled, the first read on an instance
(slot absent) invokes the compute function exactly once and stores the
result in the slot, and the subsequent read returns the stored value with
zero further invocations; with the check disabled, every read — whatever the
slot holds — invokes the compute function afresh and overwrites the slot.
(The stored result must not be identical to the sentinel, or the next read
would treat the slot as unset; the compute function is assumed stable across
the two reads modelled.) -/
theorem C9_memoized_attribute (a : JitAttr) (computed : Nat)
    (hne : computed ≠ a.singleton) :
    (a.useSingleton = true →
      InternalJitAttr_get a none computed = ⟨computed, some computed, 1⟩ ∧
      InternalJitAttr_get a (some computed) computed =
        ⟨computed, some computed, 0⟩) ∧
    (a.useSingleton = false →
      ∀ slot : Option Nat,
        InternalJitAttr_get a slot computed =
          ⟨computed, some computed, 1⟩) := by
  constructor
  · intro h
    exact ⟨by simp [InternalJitAttr_get, h], by simp [InternalJitAttr_get, h, hne]⟩
  · intro h slot
    simp [InternalJitAttr_get, h]

theorem C9_witness :
    (InternalJitAttr_get ⟨0, false, true⟩ none 6 = ⟨6, some 6, 1⟩ ∧
      InternalJitAttr_get ⟨0, false, true⟩ (some 6) 6 = ⟨6, some 6, 0⟩) ∧
    InternalJitAttr_get ⟨0, false, false⟩ (some 6) 6 = ⟨6, some 6, 1⟩ :=
  ⟨(C9_memoized_attribute ⟨0, false, true⟩ 6 (by decide)).1 rfl,
    (C9_memoized_attribute ⟨0, false, false⟩ 6 (by decide)).2 rfl (some 6)⟩

/-! ## WeakInstMeta_new (`src/caching.c`, lines 377-459)

Type creation through the metaclass.  Of the class dict only the two
entries the code inspects are modelled; each base class is modelled by
whether `PyObject_HasAttrString(base, "__weakref__")` holds of it. -/

/-- The modelled part of the class dict handed to the metaclass. -/
structure ClsDict where
  /-- the `__inst_caching__` entry, when the class body declared one. -/
  instCachingEntry : Option PyV
  /-- the `__slots__` entry, when declared (modelled as a tuple of names). -/
  slots : Option (List String)
deriving DecidableEq

/-- Result of `snakeoil_WeakInstMeta_new`: the class dict after the
metaclass's mutations (with `__inst_caching__` normalised to `True`/`False`)
and the computed caching flag stored on the new type. -/
structure NewResult where
  d : ClsDict
  instCaching : Bool
deriving DecidableEq

/-- `snakeoil_WeakInstMeta_new` (caching.c lines 377-459): read
`__inst_caching__` (absent means false), write the normalised flag back,
and — only when caching is enabled and the class declares `__slots__` and no
base has a `__weakref__` attribute — append `"__weakref__"` to `__slots__`
before the type is created. -/
def WeakInstMeta_new (basesHaveWeakref : List Bool) (d : ClsDict) :
    NewResult :=
  let ic :=
    match d.instCachingEntry with
    | some v => pyTruthy v
    | none => false
  let d1 : ClsDict :=
    { d with instCachingEntry := some (.int (if ic then 1 else 0)) }
  if ic then
    match d1.slots with
    | some slotlist =>
      if basesHaveWeakref.any (· = true) then ⟨d1, ic⟩
      else ⟨{ d1 with slots := some (slotlist ++ ["__weakref__"]) }, ic⟩
    | none => ⟨d1, ic⟩
  else
    ⟨d1, ic⟩

/-- C10: when a class is created through the metaclass with a truthy
`__inst_caching__`, then: if the class dict defines `__slots__` and no base
provides `__weakref__`, the metaclass appends `"__weakref__"` to
`__slots__`; if some base already provides `__weakref__`, `__slots__` is
left exactly as declared; and if `__slots__` is absent it stays absent.  In
every case the caching flag ends up set. -/
theorem C10_weakref_slot (bases : List Bool) (d : ClsDict) (v : PyV)
    (hentry : d.instCachingEntry = some v) (htrue : pyTruthy v = true) :
    (∀ slotlist : List String, d.slots = some slotlist →
      bases.any (· = true) = false →
      (WeakInstMeta_new bases d).d.slots =
        some (slotlist ++ ["__weakref__"])) ∧
    (∀ slotlist : List String, d.slots = some slotlist →
      bases.any (· = true) = true →
      (WeakInstMeta_new bases d).d.slots = some slotlist) ∧
    (d.slots = none → (WeakInstMeta_new bases d).d.slots = none) ∧
    (WeakInstMeta_new bases d).instCaching = true := by
  refine ⟨?_, ?_, ?_, ?_⟩
  · intro slotlist hs hb
    have hb2 : ¬ true ∈ bases := by
      intro hmem
      have h2 : (bases.any fun x => decide (x = true)) = true :=
        List.any_eq_true.mpr ⟨true, hmem, by simp⟩
      rw [hb] at h2
      exact Bool.false_ne_true h2
    simp [WeakInstMeta_new, hentry, htrue, hs, hb2]
  · intro slotlist hs hb
    have hb2 : true ∈ bases := by
      obtain ⟨x, hx, hxe⟩ := List.any_eq_true.mp hb
      simp only [decide_eq_true_eq] at hxe
      exact hxe ▸ hx
    simp [WeakInstMeta_new, hentry, htrue, hs, hb2]
  · intro hs
    simp [WeakInstMeta_new, hentry, htrue, hs]
  · cases hslots : d.slots with
    | none => simp [WeakInstMeta_new, hentry, htrue, hslots]
    | some slotlist =>
      by_cases hb : true ∈ bases <;>
        simp [WeakInstMeta_new, hentry, htrue, hslots, hb]

theorem C10_witness :
    (WeakInstMeta_new [false]
        ⟨some (PyV.int 1), some ["a"]⟩).d.slots =
      some (["a"] ++ ["__weakref__"]) ∧
    (WeakInstMeta_new [true]
        ⟨some (PyV.int 1), some ["a"]⟩).d.slots = some ["a"] ∧
    (WeakInstMeta_new [false] ⟨some (PyV.int 1), none⟩).d.slots = none ∧
    (WeakInstMeta_new [false]
        ⟨some (PyV.int 1), some ["a"]⟩).instCaching = true := by
  refine ⟨?_, ?_, ?_, ?_⟩
  · exact (C10_weakref_slot [false] ⟨some (PyV.int 1), some ["a"]⟩
      (PyV.int 1) rfl (by decide)).1 ["a"] rfl (by decide)
  · exact ((C10_weakref_slot [true] ⟨some (PyV.int 1), some ["a"]⟩
      (PyV.int 1) rfl (by decide)).2).1 ["a"] rfl (by decide)
  · exact ((C10_weakref_slot [false] ⟨some (PyV.int 1), none⟩
      (PyV.int 1) rfl (by decide)).2).2.1 rfl
  · exact ((C10_weakref_slot [false] ⟨some (PyV.int 1), some ["a"]⟩
      (PyV.int 1) rfl (by decide)).2).2.2

end Snakeoil
